import Mathlib

set_option maxHeartbeats 1000000
set_option maxRecDepth 4000

/-!
Verification of the JC4880P443C example-firmware collection against its
natural-language specification.  Each namespace shallowly embeds the state
and the relevant functions of one example's `main.cpp`; hardware/driver
calls are modelled by explicit environment inputs carrying the driver
result codes, and user/driver events drive an explicit step function.
-/

namespace Battery

/-- `BATTERY_V_MAX` from `10_battery_adc/src/main.cpp` (voltage at 100%). -/
def BATTERY_V_MAX : Int := 2500

/-- `BATTERY_V_MIN` from `10_battery_adc/src/main.cpp` (voltage at 0%). -/
def BATTERY_V_MIN : Int := 2250

/-- `ADC_SAMPLES` from `10_battery_adc/src/main.cpp`. -/
def ADC_SAMPLES : Nat := 500

/-- `calculate_battery_percent` from `10_battery_adc/src/main.cpp`.
C `int` division truncates toward zero, which is `Int.tdiv`. -/
def calculate_battery_percent (voltage_mv : Int) : Int :=
  if voltage_mv ≥ BATTERY_V_MAX then 100
  else if voltage_mv ≤ BATTERY_V_MIN then 0
  else ((voltage_mv - BATTERY_V_MIN) * 100).tdiv (BATTERY_V_MAX - BATTERY_V_MIN)

/-- The averaging step of `read_battery_voltage` from
`10_battery_adc/src/main.cpp`: `raw_sum` accumulates the 500 raw samples
returned by `adc_oneshot_read` and `raw_avg = raw_sum / ADC_SAMPLES`
(C `int` division on non-negative values, i.e. `Nat` division). -/
def read_battery_voltage_raw_avg (samples : List Nat) : Nat :=
  samples.sum / ADC_SAMPLES

/-- In the open interval between the thresholds the C truncated division
agrees with mathematical floor division, because the numerator is
non-negative there. -/
lemma calculate_battery_percent_eq_ediv (v : Int) :
    calculate_battery_percent v =
      if v ≥ BATTERY_V_MAX then 100
      else if v ≤ BATTERY_V_MIN then 0
      else (v - BATTERY_V_MIN) * 100 / (BATTERY_V_MAX - BATTERY_V_MIN) := by
  unfold calculate_battery_percent
  split_ifs with h1 h2
  · rfl
  · rfl
  · refine Int.tdiv_eq_ediv ?_ (by decide)
    simp only [BATTERY_V_MIN, ge_iff_le, not_le] at h2 ⊢
    omega

/-- C5: `calculate_battery_percent` returns 100 at or above 2500 mV,
0 at or below 2250 mV, exactly 50 at the midpoint 2375 mV, and the linear
interpolation `(v - 2250) * 100 / (2500 - 2250)` strictly between the
thresholds. -/
theorem battery_percent_thresholds (v : Int) :
    (BATTERY_V_MAX ≤ v → calculate_battery_percent v = 100) ∧
    (v ≤ BATTERY_V_MIN → calculate_battery_percent v = 0) ∧
    calculate_battery_percent 2375 = 50 ∧
    (BATTERY_V_MIN < v → v < BATTERY_V_MAX →
      calculate_battery_percent v = (v - 2250) * 100 / (2500 - 2250)) := by
  refine ⟨?_, ?_, by decide, ?_⟩
  · intro h
    unfold calculate_battery_percent
    rw [if_pos h]
  · intro h
    unfold calculate_battery_percent
    have hlt : ¬ (v ≥ BATTERY_V_MAX) := by
      simp only [BATTERY_V_MAX, BATTERY_V_MIN, ge_iff_le, not_le] at h ⊢
      omega
    rw [if_neg hlt, if_pos h]
  · intro h1 h2
    rw [calculate_battery_percent_eq_ediv]
    rw [if_neg (by omega), if_neg (by omega)]
    simp [BATTERY_V_MIN, BATTERY_V_MAX]

/-- Witness for C5 at concrete voltages. -/
theorem battery_percent_thresholds_witness :
    calculate_battery_percent 2600 = 100 ∧
    calculate_battery_percent 2000 = 0 ∧
    calculate_battery_percent 2375 = 50 ∧
    calculate_battery_percent 2400 = (2400 - 2250) * 100 / (2500 - 2250) :=
  ⟨(battery_percent_thresholds 2600).1 (by decide),
   (battery_percent_thresholds 2000).2.1 (by decide),
   (battery_percent_thresholds 2375).2.2.1,
   (battery_percent_thresholds 2400).2.2.2 (by decide) (by decide)⟩

/-- C6: the percentage is always in [0, 100] and is monotonically
non-decreasing in the input voltage. -/
theorem battery_percent_clamped_monotone (v w : Int) (hvw : v ≤ w) :
    0 ≤ calculate_battery_percent v ∧ calculate_battery_percent v ≤ 100 ∧
    calculate_battery_percent v ≤ calculate_battery_percent w := by
  rw [calculate_battery_percent_eq_ediv v, calculate_battery_percent_eq_ediv w]
  simp only [BATTERY_V_MAX, BATTERY_V_MIN, ge_iff_le]
  split_ifs <;> omega

/-- Witness for C6 at concrete voltages. -/
theorem battery_percent_clamped_monotone_witness :
    0 ≤ calculate_battery_percent 2300 ∧ calculate_battery_percent 2300 ≤ 100 ∧
    calculate_battery_percent 2300 ≤ calculate_battery_percent 2450 :=
  battery_percent_clamped_monotone 2300 2450 (by decide)

/-- C7: for 500 raw samples the integer average `raw_sum / 500` lies
between the minimum and the maximum of the samples.  The bound 4095
reflects the 12-bit raw range delivered by `adc_oneshot_read` with
`ADC_BITWIDTH_DEFAULT`; it keeps the C 32-bit `int` accumulator exact, so
the `Nat` model coincides with the machine arithmetic. -/
theorem adc_average_between_min_max (samples : List Nat)
    (hlen : samples.length = ADC_SAMPLES)
    (_hbound : ∀ x ∈ samples, x ≤ 4095) (mn mx : Nat)
    (hmn : samples.min? = some mn) (hmx : samples.max? = some mx) :
    mn ≤ read_battery_voltage_raw_avg samples ∧
    read_battery_voltage_raw_avg samples ≤ mx := by
  obtain ⟨hmemn, hlen_mn⟩ := List.min?_eq_some_iff'.1 hmn
  obtain ⟨hmemx, hlen_mx⟩ := List.max?_eq_some_iff'.1 hmx
  unfold read_battery_voltage_raw_avg
  constructor
  · refine (Nat.le_div_iff_mul_le (by simp [ADC_SAMPLES])).2 ?_
    have h1 : samples.length • mn ≤ samples.sum :=
      List.card_nsmul_le_sum samples mn hlen_mn
    simp only [smul_eq_mul, hlen] at h1
    rw [Nat.mul_comm]
    exact h1
  · refine Nat.div_le_of_le_mul ?_
    have h1 : samples.sum ≤ samples.length • mx :=
      List.sum_le_card_nsmul samples mx hlen_mx
    simp only [smul_eq_mul, hlen] at h1
    exact h1

/-- Witness for C7 on a concrete constant sample set. -/
theorem adc_average_between_min_max_witness :
    7 ≤ read_battery_voltage_raw_avg (List.replicate 500 7) ∧
    read_battery_voltage_raw_avg (List.replicate 500 7) ≤ 7 :=
  adc_average_between_min_max (List.replicate 500 7)
    (by simp [ADC_SAMPLES])
    (by intro x hx; rw [List.eq_of_mem_replicate hx]; omega)
    7 7
    (List.min?_replicate_of_pos (by simp) (by omega))
    (List.max?_replicate_of_pos (by simp) (by omega))

end Battery

namespace SdCard

/-- `ESP_OK` status code (esp_err_t `0`). -/
def ESP_OK : Int := 0

/-- Result codes delivered by the three driver calls a single button press
can make: `sd_pwr_ctrl_new_on_chip_ldo`, `esp_vfs_fat_sdmmc_mount` and
`esp_vfs_fat_sdcard_unmount` (from `06_sdcard/src/main.cpp`). -/
structure SdEnv where
  ldoRes : Int
  mountRes : Int
  unmountRes : Int
deriving DecidableEq

/-- The globals of `06_sdcard/src/main.cpp`: `sd_card`,
`sd_pwr_ctrl_handle` and `sd_mounted`, plus a ghost counter of
`esp_vfs_fat_sdmmc_mount` invocations. -/
structure SdState where
  sd_card : Option Unit
  sd_pwr_ctrl_handle : Option Unit
  sd_mounted : Bool
  fsMountCalls : Nat
deriving DecidableEq

/-- The boot state: both handles `NULL`, `sd_mounted = false`. -/
def initState : SdState :=
  { sd_card := none, sd_pwr_ctrl_handle := none, sd_mounted := false,
    fsMountCalls := 0 }

/-- `sd_mount` from `06_sdcard/src/main.cpp`: create the LDO power rail
(on failure return the error without touching anything else); then mount
the filesystem (on failure delete the rail, null the handle and return the
mount error). -/
def sd_mount (env : SdEnv) (s : SdState) : SdState × Int :=
  if env.ldoRes ≠ ESP_OK then
    (s, env.ldoRes)
  else
    let s1 := { s with sd_pwr_ctrl_handle := some () }
    let s2 := { s1 with fsMountCalls := s1.fsMountCalls + 1 }
    if env.mountRes ≠ ESP_OK then
      ({ s2 with sd_pwr_ctrl_handle := none }, env.mountRes)
    else
      ({ s2 with sd_card := some () }, ESP_OK)

/-- `sd_unmount` from `06_sdcard/src/main.cpp`: unmount the filesystem,
null `sd_card`, then delete and null the rail handle if present; the
driver's result code is returned unchanged. -/
def sd_unmount (env : SdEnv) (s : SdState) : SdState × Int :=
  let s1 := { s with sd_card := none }
  let s2 :=
    if s1.sd_pwr_ctrl_handle.isSome then { s1 with sd_pwr_ctrl_handle := none }
    else s1
  (s2, env.unmountRes)

/-- `mount_btn_click_cb` from `06_sdcard/src/main.cpp`: when mounted,
unmount and clear `sd_mounted` only on success; when unmounted, mount and
set `sd_mounted` only on success. -/
def mount_btn_click_cb (env : SdEnv) (s : SdState) : SdState :=
  if s.sd_mounted then
    let r := sd_unmount env s
    if r.2 = ESP_OK then { r.1 with sd_mounted := false } else r.1
  else
    let r := sd_mount env s
    if r.2 = ESP_OK then { r.1 with sd_mounted := true } else r.1

/-- A sequence of mount-button presses, each with its own driver results. -/
def runPresses (envs : List SdEnv) (s : SdState) : SdState :=
  envs.foldl (fun st e => mount_btn_click_cb e st) s

/-- The spec's invariant: the rail handle is non-null iff the card is
mounted. -/
def railInvariant (s : SdState) : Prop :=
  s.sd_pwr_ctrl_handle ≠ none ↔ s.sd_mounted = true

instance (s : SdState) : Decidable (railInvariant s) := by
  unfold railInvariant
  infer_instance

/-- A press with all driver calls succeeding. -/
def envOk : SdEnv := { ldoRes := 0, mountRes := 0, unmountRes := 0 }

/-- A press whose filesystem-unmount driver call fails. -/
def envUnmountFail : SdEnv := { ldoRes := 0, mountRes := 0, unmountRes := 1 }

lemma runPresses_cons (e : SdEnv) (es : List SdEnv) (s : SdState) :
    runPresses (e :: es) s = runPresses es (mount_btn_click_cb e s) := rfl

/-- One button press preserves the weak invariant: the rail handle is
null whenever the card is unmounted. -/
lemma weak_inv_step (e : SdEnv) (s : SdState)
    (h : s.sd_mounted = false → s.sd_pwr_ctrl_handle = none) :
    (mount_btn_click_cb e s).sd_mounted = false →
      (mount_btn_click_cb e s).sd_pwr_ctrl_handle = none := by
  unfold mount_btn_click_cb sd_mount sd_unmount
  rcases s with ⟨card, rail, mounted, calls⟩
  dsimp only at h ⊢
  split_ifs <;> simp_all

/-- One button press whose unmount driver call succeeds preserves the full
invariant. -/
lemma rail_inv_step (e : SdEnv) (s : SdState) (hu : e.unmountRes = ESP_OK)
    (h : railInvariant s) : railInvariant (mount_btn_click_cb e s) := by
  unfold railInvariant at h ⊢
  unfold mount_btn_click_cb sd_mount sd_unmount
  rcases s with ⟨card, rail, mounted, calls⟩
  dsimp only at h ⊢
  split_ifs <;> simp_all

lemma weak_inv_run (envs : List SdEnv) (s : SdState)
    (h : s.sd_mounted = false → s.sd_pwr_ctrl_handle = none) :
    (runPresses envs s).sd_mounted = false →
      (runPresses envs s).sd_pwr_ctrl_handle = none := by
  induction envs generalizing s with
  | nil => exact h
  | cons e es ih =>
      rw [runPresses_cons]
      exact ih _ (weak_inv_step e s h)

lemma rail_inv_run (envs : List SdEnv) (s : SdState)
    (hu : ∀ e ∈ envs, e.unmountRes = ESP_OK)
    (h : railInvariant s) : railInvariant (runPresses envs s) := by
  induction envs generalizing s with
  | nil => exact h
  | cons e es ih =>
      rw [runPresses_cons]
      exact ih _ (fun x hx => hu x (List.mem_cons_of_mem e hx))
        (rail_inv_step e s (hu e (List.mem_cons_self e es)) h)

/-- C1 counterexample: a successful mount followed by a press whose
filesystem-unmount driver call fails reaches a state with `sd_mounted`
still `true` but the rail handle already nulled, refuting the claimed
invariant for arbitrary press sequences. -/
theorem rail_invariant_cex :
    ¬ railInvariant (runPresses [envOk, envUnmountFail] initState) := by
  decide

/-- C1 (amended): after any press sequence the rail handle is never
non-null while unmounted; and if the filesystem-unmount driver call never
fails, the handle is additionally never null while mounted, i.e. the full
iff invariant holds in every reachable state. -/
theorem rail_invariant_reachable (envs : List SdEnv) :
    ((runPresses envs initState).sd_mounted = false →
      (runPresses envs initState).sd_pwr_ctrl_handle = none) ∧
    ((∀ e ∈ envs, e.unmountRes = ESP_OK) →
      railInvariant (runPresses envs initState)) := by
  constructor
  · exact weak_inv_run envs initState (by intro _h; rfl)
  · intro hu
    exact rail_inv_run envs initState hu (by decide)

/-- Witness for C1 (amended) on concrete press sequences. -/
theorem rail_invariant_reachable_witness :
    (runPresses [envOk, envOk] initState).sd_pwr_ctrl_handle = none ∧
    railInvariant (runPresses [envOk] initState) :=
  ⟨(rail_invariant_reachable [envOk, envOk]).1 (by decide),
   (rail_invariant_reachable [envOk]).2 (by decide)⟩

/-- C2: if the LDO allocation fails, `sd_mount` returns that error with
the state untouched (in particular the filesystem mount is not attempted
and the rail handle stays null); if the filesystem mount fails, it returns
the mount error with the rail released and nulled; hence after any failing
`sd_mount` the rail handle is null. -/
theorem sd_mount_failure_no_leak (env : SdEnv) (s : SdState)
    (h0 : s.sd_pwr_ctrl_handle = none) :
    (env.ldoRes ≠ ESP_OK → sd_mount env s = (s, env.ldoRes)) ∧
    (env.ldoRes = ESP_OK → env.mountRes ≠ ESP_OK →
      (sd_mount env s).2 = env.mountRes ∧
      (sd_mount env s).1.sd_pwr_ctrl_handle = none ∧
      (sd_mount env s).1.fsMountCalls = s.fsMountCalls + 1 ∧
      (sd_mount env s).1.sd_card = s.sd_card) ∧
    ((sd_mount env s).2 ≠ ESP_OK → (sd_mount env s).1.sd_pwr_ctrl_handle = none) := by
  unfold sd_mount
  rcases s with ⟨card, rail, mounted, calls⟩
  dsimp only at h0 ⊢
  subst h0
  split_ifs <;> simp_all

/-- Witness for C2 at concrete driver results. -/
theorem sd_mount_failure_no_leak_witness :
    (sd_mount { ldoRes := 261, mountRes := 0, unmountRes := 0 } initState =
      (initState, 261)) ∧
    ((sd_mount { ldoRes := 0, mountRes := 263, unmountRes := 0 } initState).2 = 263 ∧
      (sd_mount { ldoRes := 0, mountRes := 263, unmountRes := 0 } initState).1.sd_pwr_ctrl_handle = none ∧
      (sd_mount { ldoRes := 0, mountRes := 263, unmountRes := 0 } initState).1.fsMountCalls = initState.fsMountCalls + 1 ∧
      (sd_mount { ldoRes := 0, mountRes := 263, unmountRes := 0 } initState).1.sd_card = initState.sd_card) :=
  ⟨(sd_mount_failure_no_leak { ldoRes := 261, mountRes := 0, unmountRes := 0 }
      initState (by decide)).1 (by decide),
   (sd_mount_failure_no_leak { ldoRes := 0, mountRes := 263, unmountRes := 0 }
      initState (by decide)).2.1 (by decide) (by decide)⟩

/-- C3: after a successful `sd_mount`, running `sd_unmount` leaves both
the rail handle and the card handle null, and a subsequent `sd_mount`
whose driver calls succeed returns `ESP_OK` (the round trip leaks no rail
and is repeatable). -/
theorem sd_mount_unmount_roundtrip (e1 e2 e3 : SdEnv) (s : SdState)
    (h1 : (sd_mount e1 s).2 = ESP_OK)
    (h2 : e2.unmountRes = ESP_OK)
    (h3 : e3.ldoRes = ESP_OK) (h4 : e3.mountRes = ESP_OK) :
    (sd_unmount e2 (sd_mount e1 s).1).1.sd_pwr_ctrl_handle = none ∧
    (sd_unmount e2 (sd_mount e1 s).1).1.sd_card = none ∧
    (sd_unmount e2 (sd_mount e1 s).1).2 = ESP_OK ∧
    (sd_mount e3 (sd_unmount e2 (sd_mount e1 s).1).1).2 = ESP_OK := by
  unfold sd_mount at h1
  unfold sd_mount sd_unmount
  rcases s with ⟨card, rail, mounted, calls⟩
  dsimp only at h1 ⊢
  split_ifs at h1 ⊢ <;> simp_all

/-- Witness for C3 at concrete driver results. -/
theorem sd_mount_unmount_roundtrip_witness :
    (sd_unmount envOk (sd_mount envOk initState).1).1.sd_pwr_ctrl_handle = none ∧
    (sd_unmount envOk (sd_mount envOk initState).1).1.sd_card = none ∧
    (sd_unmount envOk (sd_mount envOk initState).1).2 = ESP_OK ∧
    (sd_mount envOk (sd_unmount envOk (sd_mount envOk initState).1).1).2 = ESP_OK :=
  sd_mount_unmount_roundtrip envOk envOk envOk initState
    (by decide) (by decide) (by decide) (by decide)

end SdCard

namespace WifiHttp

/-- `WIFI_MAX_RETRY` from the WiFi HTTP example's `main.cpp`. -/
def WIFI_MAX_RETRY : Nat := 5

/-- The events dispatched to `wifi_event_handler`. -/
inductive WifiEvent where
  | staStart
  | staDisconnected
  | gotIp
deriving DecidableEq

/-- `wifi_retry_count` plus the two event-group bits, with ghost counters
for `esp_wifi_connect` calls and for settings of `WIFI_FAIL_BIT`. -/
structure WifiState where
  wifi_retry_count : Nat
  connectCalls : Nat
  failBitSets : Nat
  connectedBit : Bool
  failBit : Bool
deriving DecidableEq

/-- The state at handler registration: counter 0, no bits set. -/
def initWifi : WifiState :=
  { wifi_retry_count := 0, connectCalls := 0, failBitSets := 0,
    connectedBit := false, failBit := false }

/-- `wifi_event_handler` from the WiFi HTTP example's `main.cpp`:
on `STA_START` connect; on `STA_DISCONNECTED` reconnect and increment the
counter while it is below `WIFI_MAX_RETRY`, otherwise set `WIFI_FAIL_BIT`;
on `IP_EVENT_STA_GOT_IP` zero the counter and set `WIFI_CONNECTED_BIT`. -/
def wifi_event_handler (s : WifiState) : WifiEvent → WifiState
  | .staStart => { s with connectCalls := s.connectCalls + 1 }
  | .staDisconnected =>
      if s.wifi_retry_count < WIFI_MAX_RETRY then
        { s with connectCalls := s.connectCalls + 1,
                 wifi_retry_count := s.wifi_retry_count + 1 }
      else
        { s with failBit := true, failBitSets := s.failBitSets + 1 }
  | .gotIp => { s with wifi_retry_count := 0, connectedBit := true }

/-- `n` consecutive disconnect events. -/
def disconnects (n : Nat) (s : WifiState) : WifiState :=
  match n with
  | 0 => s
  | n + 1 => wifi_event_handler (disconnects n s) .staDisconnected

/-- Counter, connect-call count and fail-bit count after `n` consecutive
disconnects from the initial state. -/
lemma disconnects_init_spec (n : Nat) :
    (disconnects n initWifi).wifi_retry_count = min n 5 ∧
    (disconnects n initWifi).connectCalls = min n 5 ∧
    (disconnects n initWifi).failBitSets = n - 5 := by
  induction n with
  | zero => simp [disconnects, initWifi]
  | succ n ih =>
      obtain ⟨h1, h2, h3⟩ := ih
      simp only [disconnects, wifi_event_handler, WIFI_MAX_RETRY]
      split_ifs with h
      · simp only [h1, h2, h3]
        omega
      · simp only [h1, h2, h3]
        omega

/-- Once the counter is saturated, further disconnects never call
`esp_wifi_connect` again and keep the counter saturated. -/
lemma disconnects_saturated (m : Nat) (s : WifiState)
    (h : ¬ s.wifi_retry_count < WIFI_MAX_RETRY) :
    (disconnects m s).connectCalls = s.connectCalls ∧
    ¬ (disconnects m s).wifi_retry_count < WIFI_MAX_RETRY := by
  induction m with
  | zero => exact ⟨rfl, h⟩
  | succ m ih =>
      obtain ⟨h1, h2⟩ := ih
      simp only [disconnects, wifi_event_handler]
      rw [if_neg h2]
      exact ⟨h1, h2⟩

/-- C4: from retry counter 0, `N ≤ 5` consecutive disconnects drive the
counter to exactly `N` and a subsequent got-IP event resets it to 0; after
6 consecutive disconnects `WIFI_FAIL_BIT` has been set exactly once, and
no further disconnect event attempts a reconnect. -/
theorem wifi_retry_behavior (N : Nat) (hN : N ≤ WIFI_MAX_RETRY) :
    (disconnects N initWifi).wifi_retry_count = N ∧
    (wifi_event_handler (disconnects N initWifi) .gotIp).wifi_retry_count = 0 ∧
    (disconnects 6 initWifi).failBitSets = 1 ∧
    (disconnects 6 initWifi).failBit = true ∧
    (∀ m, (disconnects m (disconnects 6 initWifi)).connectCalls =
      (disconnects 6 initWifi).connectCalls) := by
  refine ⟨?_, rfl, ?_, ?_, ?_⟩
  · have h := (disconnects_init_spec N).1
    simp only [WIFI_MAX_RETRY] at hN
    omega
  · have h := (disconnects_init_spec 6).2.2
    omega
  · decide
  · intro m
    refine (disconnects_saturated m (disconnects 6 initWifi) ?_).1
    have h := (disconnects_init_spec 6).1
    simp only [WIFI_MAX_RETRY]
    omega

/-- Witness for C4 at `N = 3`. -/
theorem wifi_retry_behavior_witness :
    (disconnects 3 initWifi).wifi_retry_count = 3 ∧
    (wifi_event_handler (disconnects 3 initWifi) .gotIp).wifi_retry_count = 0 ∧
    (disconnects 6 initWifi).failBitSets = 1 ∧
    (disconnects 6 initWifi).failBit = true ∧
    (∀ m, (disconnects m (disconnects 6 initWifi)).connectCalls =
      (disconnects 6 initWifi).connectCalls) :=
  wifi_retry_behavior 3 (by decide)

end WifiHttp

namespace Ble

/-- `MAX_DEVICES` from `07_bluetooth/src/main.cpp`. -/
def MAX_DEVICES : Nat := 20

/-- `ble_device_t` from `07_bluetooth/src/main.cpp`.  The 6-byte address
compared by `memcmp` is modelled as a `Nat`; the `char name[32]` field as
a list of at most 31 characters (the C string content), the empty list
standing for "no name". -/
structure BleDevice where
  bda : Nat
  name : List Char
  rssi : Int
  has_name : Bool
deriving DecidableEq

/-- `find_device` from `07_bluetooth/src/main.cpp`: index of the first
entry with the given address, `none` if absent. -/
def find_device : List BleDevice → Nat → Option Nat
  | [], _ => none
  | d :: rest, bda =>
      if d.bda = bda then some 0
      else (find_device rest bda).map (· + 1)

/-- In-place update of the entry at index `idx`, as the C code's
`devices[idx]` assignments. -/
def modifyIdx (f : BleDevice → BleDevice) : Nat → List BleDevice → List BleDevice
  | _, [] => []
  | 0, d :: rest => f d :: rest
  | i + 1, d :: rest => d :: modifyIdx f i rest

/-- The update branch of `add_or_update_device`: always refresh the RSSI;
copy the (truncated) name only when the report carries one and the entry
has none yet. -/
def updateDevice (name : List Char) (rssi : Int) (d : BleDevice) : BleDevice :=
  let d1 := { d with rssi := rssi }
  if name ≠ [] ∧ d1.has_name = false then
    { d1 with name := name.take 31, has_name := true }
  else d1

/-- `add_or_update_device` from `07_bluetooth/src/main.cpp`: update the
existing entry when the address is known, otherwise append a new entry
while the list holds fewer than `MAX_DEVICES` devices, else drop the
report.  A NULL or empty name is the empty list. -/
def add_or_update_device (devices : List BleDevice) (bda : Nat)
    (name : List Char) (rssi : Int) : List BleDevice :=
  match find_device devices bda with
  | some idx => modifyIdx (updateDevice name rssi) idx devices
  | none =>
      if devices.length < MAX_DEVICES then
        if name ≠ [] then
          devices ++ [{ bda := bda, name := name.take 31, rssi := rssi,
                        has_name := true }]
        else
          devices ++ [{ bda := bda, name := [], rssi := rssi,
                        has_name := false }]
      else devices

lemma find_device_eq_none (l : List BleDevice) (b : Nat)
    (h : ∀ d ∈ l, d.bda ≠ b) : find_device l b = none := by
  induction l with
  | nil => rfl
  | cons d rest ih =>
      simp only [find_device]
      rw [if_neg (h d (List.mem_cons_self d rest))]
      rw [ih (fun x hx => h x (List.mem_cons_of_mem d hx))]
      rfl

lemma find_device_append_last (l : List BleDevice) (d0 : BleDevice) (b : Nat)
    (habs : ∀ d ∈ l, d.bda ≠ b) (hd : d0.bda = b) :
    find_device (l ++ [d0]) b = some l.length := by
  induction l with
  | nil => simp [find_device, hd]
  | cons d rest ih =>
      have hd' : d.bda ≠ b := habs d (List.mem_cons_self d rest)
      have ih' := ih (fun x hx => habs x (List.mem_cons_of_mem d hx))
      simp only [List.cons_append, find_device, if_neg hd', List.append_eq, ih',
        Option.map_some', List.length_cons]

lemma modifyIdx_append_length (f : BleDevice → BleDevice)
    (l : List BleDevice) (d0 : BleDevice) :
    modifyIdx f l.length (l ++ [d0]) = l ++ [f d0] := by
  induction l with
  | nil => rfl
  | cons d rest ih =>
      simp only [List.cons_append, List.length_cons, modifyIdx, List.append_eq, ih]

lemma modifyIdx_length (f : BleDevice → BleDevice) (i : Nat) (l : List BleDevice) :
    (modifyIdx f i l).length = l.length := by
  induction l generalizing i with
  | nil => cases i <;> rfl
  | cons d rest ih =>
      cases i with
      | zero => rfl
      | succ i => simp only [modifyIdx, List.length_cons, ih]

lemma modifyIdx_getElem? (f : BleDevice → BleDevice) (i : Nat)
    (l : List BleDevice) (j : Nat) :
    (modifyIdx f i l)[j]? = if j = i then (l[j]?).map f else l[j]? := by
  induction l generalizing i j with
  | nil => cases i <;> cases j <;> simp [modifyIdx]
  | cons d rest ih =>
      cases i with
      | zero =>
          cases j with
          | zero => simp [modifyIdx]
          | succ j => simp [modifyIdx]
      | succ i =>
          cases j with
          | zero => simp [modifyIdx]
          | succ j => simp [modifyIdx, ih]

lemma add_or_update_found (devices : List BleDevice) (b : Nat)
    (nm : List Char) (r : Int) (idx : Nat)
    (h : find_device devices b = some idx) :
    add_or_update_device devices b nm r =
      modifyIdx (updateDevice nm r) idx devices := by
  unfold add_or_update_device
  rw [h]

lemma add_or_update_not_found (devices : List BleDevice) (b : Nat)
    (nm : List Char) (r : Int) (h : find_device devices b = none) :
    add_or_update_device devices b nm r =
      if devices.length < MAX_DEVICES then
        if nm ≠ [] then
          devices ++ [{ bda := b, name := nm.take 31, rssi := r,
                        has_name := true }]
        else
          devices ++ [{ bda := b, name := [], rssi := r, has_name := false }]
      else devices := by
  unfold add_or_update_device
  rw [h]

/-- C8 (amended): when the list is not yet full and the address is new,
one report without a name followed by one with a (≤ 31 character) name and
another RSSI yields exactly one entry for that address, carrying the
second report's RSSI and name. -/
theorem ble_dedupe (devices : List BleDevice) (b : Nat) (nm : List Char)
    (r1 r2 : Int)
    (hroom : devices.length < MAX_DEVICES)
    (habsent : ∀ d ∈ devices, d.bda ≠ b)
    (hname : nm ≠ []) (hlen : nm.length ≤ 31) :
    add_or_update_device (add_or_update_device devices b [] r1) b nm r2 =
      devices ++ [{ bda := b, name := nm, rssi := r2, has_name := true }] ∧
    (add_or_update_device (add_or_update_device devices b [] r1) b nm r2).countP
      (fun d => d.bda == b) = 1 := by
  have step1 : add_or_update_device devices b [] r1 =
      devices ++ [{ bda := b, name := [], rssi := r1, has_name := false }] := by
    rw [add_or_update_not_found devices b [] r1
      (find_device_eq_none devices b habsent)]
    simp [hroom]
  have step2 : add_or_update_device (add_or_update_device devices b [] r1) b nm r2 =
      devices ++ [{ bda := b, name := nm, rssi := r2, has_name := true }] := by
    rw [step1,
      add_or_update_found _ b nm r2 devices.length
        (find_device_append_last devices _ b habsent rfl),
      modifyIdx_append_length]
    simp [updateDevice, hname, List.take_of_length_le hlen]
  refine ⟨step2, ?_⟩
  rw [step2, List.countP_append]
  have hz : devices.countP (fun d => d.bda == b) = 0 :=
    List.countP_eq_zero.2 (fun d hd => by simp [habsent d hd])
  rw [hz, List.countP_singleton]
  simp

/-- Witness for C8 on a concrete list with room. -/
theorem ble_dedupe_witness :
    add_or_update_device
        (add_or_update_device [{ bda := 1, name := [], rssi := -9, has_name := false }] 2 [] (-40))
        2 ['T', 'V'] (-55) =
      [{ bda := 1, name := [], rssi := -9, has_name := false },
       { bda := 2, name := ['T', 'V'], rssi := -55, has_name := true }] ∧
    (add_or_update_device
        (add_or_update_device [{ bda := 1, name := [], rssi := -9, has_name := false }] 2 [] (-40))
        2 ['T', 'V'] (-55)).countP (fun d => d.bda == 2) = 1 :=
  ble_dedupe [{ bda := 1, name := [], rssi := -9, has_name := false }] 2
    ['T', 'V'] (-40) (-55) (by decide) (by decide) (by decide) (by decide)

/-- A list of 20 pairwise distinct placeholder devices (addresses 0–19):
the device list at capacity. -/
def fullList : List BleDevice :=
  (List.range 20).map
    (fun i => { bda := i, name := [], rssi := 0, has_name := false })

/-- C8 counterexample: when the list is already full, the two reports for
the new address 100 are both dropped, so the list holds zero entries for
it rather than the claimed single entry. -/
theorem ble_dedupe_cex :
    ¬ ((add_or_update_device (add_or_update_device fullList 100 [] (-40))
        100 ['X'] (-50)).countP (fun d => d.bda == 100) = 1) := by
  decide

/-- C10 counterexample: for an entry that already carries a name, a later
report with a different name updates the RSSI but leaves the stored name
unchanged — the claim's unconditional "updates that entry's RSSI and name"
fails. -/
theorem ble_full_update_name_cex :
    ((add_or_update_device
        ({ bda := 0, name := ['A'], rssi := 0, has_name := true } ::
          (List.range 19).map
            (fun i => { bda := i + 1, name := [], rssi := 0, has_name := false }))
        0 ['B'] (-7))[0]?).map (fun d => (d.rssi, d.name)) =
      some (-7, ['A']) := by
  decide

/-- C10 (amended): the device count never exceeds `MAX_DEVICES` over any
report sequence; a report for an unseen address on a full list leaves the
list unchanged; and a report for a listed address — full list or not —
rewrites exactly that entry through the update rule (RSSI always, the name
only when the report carries one and the entry has none), leaving every
other entry in place. -/
theorem ble_bounded (devices : List BleDevice) (b : Nat) (nm : List Char)
    (r : Int) (hinv : devices.length ≤ MAX_DEVICES) :
    (∀ reports : List (Nat × List Char × Int),
      (reports.foldl
        (fun l rep => add_or_update_device l rep.1 rep.2.1 rep.2.2)
        devices).length ≤ MAX_DEVICES) ∧
    (devices.length = MAX_DEVICES → (∀ d ∈ devices, d.bda ≠ b) →
      add_or_update_device devices b nm r = devices) ∧
    (∀ i, find_device devices b = some i →
      ∀ j, (add_or_update_device devices b nm r)[j]? =
        if j = i then (devices[j]?).map (updateDevice nm r) else devices[j]?) := by
  have hstep : ∀ (l : List BleDevice) (b' : Nat) (nm' : List Char) (r' : Int),
      l.length ≤ MAX_DEVICES →
      (add_or_update_device l b' nm' r').length ≤ MAX_DEVICES := by
    intro l b' nm' r' hl
    cases hf : find_device l b' with
    | some idx =>
        rw [add_or_update_found l b' nm' r' idx hf, modifyIdx_length]
        exact hl
    | none =>
        rw [add_or_update_not_found l b' nm' r' hf]
        split_ifs with h1 h2 <;> simp_all [MAX_DEVICES] <;> omega
  refine ⟨?_, ?_, ?_⟩
  · intro reports
    induction reports generalizing devices with
    | nil => exact hinv
    | cons rep rest ih =>
        exact ih _ (hstep devices rep.1 rep.2.1 rep.2.2 hinv)
  · intro hfull habs
    rw [add_or_update_not_found devices b nm r
      (find_device_eq_none devices b habs)]
    simp [hfull, MAX_DEVICES]
  · intro i hi j
    rw [add_or_update_found devices b nm r i hi]
    exact modifyIdx_getElem? (updateDevice nm r) i devices j

/-- Witness for C10 on the full placeholder list. -/
theorem ble_bounded_witness :
    (([((21 : Nat), (['Z'] : List Char), (0 : Int))]).foldl
      (fun l rep => add_or_update_device l rep.1 rep.2.1 rep.2.2)
      fullList).length ≤ MAX_DEVICES ∧
    add_or_update_device fullList 21 ['Z'] 0 = fullList ∧
    (∀ j, (add_or_update_device fullList 3 ['N'] (-5))[j]? =
      if j = 3 then (fullList[j]?).map (updateDevice ['N'] (-5))
      else fullList[j]?) :=
  ⟨(ble_bounded fullList 21 ['Z'] 0 (by decide)).1 [(21, ['Z'], 0)],
   (ble_bounded fullList 21 ['Z'] 0 (by decide)).2.1 (by decide) (by decide),
   (ble_bounded fullList 3 ['N'] (-5) (by decide)).2.2 3 (by decide)⟩

end Ble

namespace ResetDevice

/-- The globals of the reset-device example's `main.cpp`: the countdown
flag, counter and timer, the two labels the callbacks touch, and a ghost
flag recording whether `esp_restart` was called by the countdown timer. -/
structure ResetState where
  countdown_active : Bool
  countdown_value : Int
  timer_exists : Bool
  countdown_label : String
  delayed_btn_label : String
  reset_triggered : Bool
deriving DecidableEq

/-- The state right after `create_ui`: countdown inactive, counter 5, no
timer, the idle prompt on the countdown label and the delayed-reset button
labelled with its idle text. -/
def initReset : ResetState :=
  { countdown_active := false, countdown_value := 5, timer_exists := false,
    countdown_label := "Press a button to reset",
    delayed_btn_label := "Reset in 5s", reset_triggered := false }

/-- `countdown_timer_cb` from the reset-device example's `main.cpp`: a
tick is a no-op when no timer exists; if the cancel flag was cleared the
timer deletes itself and returns; otherwise it decrements the counter,
updates the label, and on reaching zero deletes the timer and calls
`esp_restart`. -/
def countdown_timer_cb (s : ResetState) : ResetState :=
  if s.timer_exists = false then s
  else if s.countdown_active = false then { s with timer_exists := false }
  else
    let v := s.countdown_value - 1
    let lbl :=
      if v > 0 then "Resetting in " ++ toString v ++ "..."
      else "Resetting NOW!"
    if v ≤ 0 then
      { s with countdown_value := v, countdown_label := lbl,
               countdown_active := false, timer_exists := false,
               reset_triggered := true }
    else
      { s with countdown_value := v, countdown_label := lbl }

/-- `delayed_reset_btn_cb` from the reset-device example's `main.cpp`:
when a countdown is active, cancel it (clear the flag, reset the counter,
show the cancellation text, restore the button's idle label); otherwise
start a 5-second countdown and create the timer if needed. -/
def delayed_reset_btn_cb (s : ResetState) : ResetState :=
  if s.countdown_active then
    { s with countdown_active := false, countdown_value := 5,
             countdown_label := "Countdown cancelled",
             delayed_btn_label := "Reset in 5s" }
  else
    { s with countdown_active := true, countdown_value := 5,
             countdown_label := "Resetting in 5...",
             delayed_btn_label := "Cancel", timer_exists := true }

/-- `m` timer ticks in sequence. -/
def ticks (m : Nat) (s : ResetState) : ResetState :=
  match m with
  | 0 => s
  | m + 1 => ticks m (countdown_timer_cb s)

/-- Ticks on a cancelled (inactive) countdown at most delete the timer:
no field other than `timer_exists` ever changes again. -/
lemma ticks_inactive (m : Nat) (s : ResetState)
    (h : s.countdown_active = false) :
    ticks m s = s ∨ ticks m s = { s with timer_exists := false } := by
  induction m generalizing s with
  | zero => exact Or.inl rfl
  | succ m ih =>
      have hstep : ticks (m + 1) s = ticks m (countdown_timer_cb s) := rfl
      by_cases ht : s.timer_exists = false
      · have hcb : countdown_timer_cb s = s := by
          unfold countdown_timer_cb
          rw [if_pos ht]
        rw [hstep, hcb]
        exact ih s h
      · have hcb : countdown_timer_cb s = { s with timer_exists := false } := by
          unfold countdown_timer_cb
          rw [if_neg ht, if_pos h]
        rw [hstep, hcb]
        rcases ih { s with timer_exists := false } h with h1 | h1
        · exact Or.inr h1
        · exact Or.inr h1

/-- The state reached by the cancel branch of the delayed-reset button. -/
def cancelledState : ResetState :=
  { countdown_active := false, countdown_value := 5, timer_exists := true,
    countdown_label := "Countdown cancelled",
    delayed_btn_label := "Reset in 5s", reset_triggered := false }

/-- After the start press and `k ≤ 4` ticks, the cancel press lands while
the countdown is still live and produces the cancelled state. -/
lemma cancel_state (k : Nat) (hk : k ≤ 4) :
    delayed_reset_btn_cb (ticks k (delayed_reset_btn_cb initReset)) =
      cancelledState := by
  interval_cases k <;> rfl

/-- C9: starting the delayed-reset countdown and cancelling it after
`k ≤ 4` ticks (before the counter reaches zero) means `esp_restart` is
never invoked by the countdown timer, no matter how many further ticks
occur; the countdown is idle again, the delayed-reset button is back to
its idle prompt and the countdown label reports the cancellation. -/
theorem countdown_cancel_no_reset (k m : Nat) (hk : k ≤ 4) :
    (ticks m (delayed_reset_btn_cb (ticks k (delayed_reset_btn_cb initReset)))).reset_triggered = false ∧
    (ticks m (delayed_reset_btn_cb (ticks k (delayed_reset_btn_cb initReset)))).countdown_active = false ∧
    (ticks m (delayed_reset_btn_cb (ticks k (delayed_reset_btn_cb initReset)))).delayed_btn_label = "Reset in 5s" ∧
    (ticks m (delayed_reset_btn_cb (ticks k (delayed_reset_btn_cb initReset)))).countdown_label = "Countdown cancelled" := by
  rw [cancel_state k hk]
  rcases ticks_inactive m cancelledState rfl with h | h <;> rw [h] <;>
    exact ⟨rfl, rfl, rfl, rfl⟩

/-- Witness for C9 at `k = 2`, `m = 7`. -/
theorem countdown_cancel_no_reset_witness :
    (ticks 7 (delayed_reset_btn_cb (ticks 2 (delayed_reset_btn_cb initReset)))).reset_triggered = false ∧
    (ticks 7 (delayed_reset_btn_cb (ticks 2 (delayed_reset_btn_cb initReset)))).countdown_active = false ∧
    (ticks 7 (delayed_reset_btn_cb (ticks 2 (delayed_reset_btn_cb initReset)))).delayed_btn_label = "Reset in 5s" ∧
    (ticks 7 (delayed_reset_btn_cb (ticks 2 (delayed_reset_btn_cb initReset)))).countdown_label = "Countdown cancelled" :=
  countdown_cancel_no_reset 2 7 (by decide)

end ResetDevice
